import Mathlib

/-!
Verification of the battle-coordination core of the namu_robot bot.

The embedding follows handlers/callback_handlers.py and
handlers/rebate_handlers.py. Python dicts are modelled as insertion-ordered
association lists with replacing insertion (`dset`), key deletion (`ddel`) and
lookup (`dget`); time.time() is modelled by samples of an explicit clock;
random.shuffle and ORDER BY RANDOM() are modelled by explicit
permutation/choice parameters supplied by the caller.
-/

namespace NamuRobot

/-- Python dict lookup (first binding of the key wins). -/
def dget {κ α : Type} [DecidableEq κ] (k : κ) : List (κ × α) → Option α
  | [] => none
  | (k', v) :: rest => if k' = k then some v else dget k rest

/-- Python dict assignment: replaces the value in place when the key exists
(keeping its insertion position), else appends a new binding. -/
def dset {κ α : Type} [DecidableEq κ] (k : κ) (v : α) : List (κ × α) → List (κ × α)
  | [] => [(k, v)]
  | (k', v') :: rest => if k' = k then (k, v) :: rest else (k', v') :: dset k v rest

/-- Python del d[k]: removes the first binding of the key. -/
def ddel {κ α : Type} [DecidableEq κ] (k : κ) : List (κ × α) → List (κ × α)
  | [] => []
  | (k', v') :: rest => if k' = k then rest else (k', v') :: ddel k rest

/-- Well-formedness of a dict model: pairwise-distinct keys, as in a Python
dict. -/
def keysNodup {κ α : Type} [DecidableEq κ] (d : List (κ × α)) : Prop :=
  (d.map Prod.fst).Nodup

instance {κ α : Type} [DecidableEq κ] (d : List (κ × α)) :
    Decidable (keysNodup d) := by
  unfold keysNodup
  infer_instance

theorem dget_dset_self {κ α : Type} [DecidableEq κ] (k : κ) (v : α)
    (d : List (κ × α)) : dget k (dset k v d) = some v := by
  induction d with
  | nil => simp [dget, dset]
  | cons hd tl ih =>
    obtain ⟨k', v'⟩ := hd
    by_cases h : k' = k
    · simp [dget, dset, h]
    · simp [dget, dset, h, ih]

theorem dget_dset_ne {κ α : Type} [DecidableEq κ] (k k' : κ) (v : α)
    (d : List (κ × α)) (h : k' ≠ k) : dget k (dset k' v d) = dget k d := by
  induction d with
  | nil => simp [dget, dset, h]
  | cons hd tl ih =>
    obtain ⟨k'', v''⟩ := hd
    by_cases h2 : k'' = k'
    · subst h2
      simp [dget, dset, h]
    · simp only [dset, if_neg h2]
      by_cases h3 : k'' = k
      · simp [dget, h3]
      · simp [dget, h3, ih]

theorem dget_eq_none_of_not_mem_keys {κ α : Type} [DecidableEq κ] (k : κ)
    (d : List (κ × α)) (h : k ∉ d.map Prod.fst) : dget k d = none := by
  induction d with
  | nil => simp [dget]
  | cons hd tl ih =>
    obtain ⟨k', v'⟩ := hd
    simp only [List.map_cons, List.mem_cons, not_or] at h
    have hne : k' ≠ k := fun he => h.1 he.symm
    simp [dget, hne, ih h.2]

theorem dget_ddel_self {κ α : Type} [DecidableEq κ] (k : κ)
    (d : List (κ × α)) (hd : keysNodup d) : dget k (ddel k d) = none := by
  induction d with
  | nil => simp [dget, ddel]
  | cons hd0 tl ih =>
    obtain ⟨k', v'⟩ := hd0
    simp only [keysNodup, List.map_cons, List.nodup_cons] at hd
    by_cases h : k' = k
    · subst h
      simp only [ddel, if_pos rfl]
      exact dget_eq_none_of_not_mem_keys k' tl hd.1
    · simp [ddel, dget, h]
      exact ih hd.2

theorem keys_ddel_sublist {κ α : Type} [DecidableEq κ] (k : κ)
    (d : List (κ × α)) : ((ddel k d).map Prod.fst).Sublist (d.map Prod.fst) := by
  induction d with
  | nil => simp [ddel]
  | cons hd tl ih =>
    obtain ⟨k', v'⟩ := hd
    by_cases h : k' = k
    · simp only [ddel, if_pos h, List.map_cons]
      exact List.Sublist.cons k' (List.Sublist.refl _)
    · simp only [ddel, if_neg h, List.map_cons]
      exact ih.cons₂ k'

theorem keysNodup_ddel {κ α : Type} [DecidableEq κ] (k : κ)
    (d : List (κ × α)) (hd : keysNodup d) : keysNodup (ddel k d) :=
  hd.sublist (keys_ddel_sublist k d)

theorem mem_keys_dset {κ α : Type} [DecidableEq κ] (x k : κ) (v : α)
    (d : List (κ × α)) (h : x ∈ (dset k v d).map Prod.fst) :
    x = k ∨ x ∈ d.map Prod.fst := by
  induction d with
  | nil =>
    simp [dset] at h
    exact Or.inl h
  | cons hd tl ih =>
    obtain ⟨k', v'⟩ := hd
    by_cases h2 : k' = k
    · simp only [dset, if_pos h2, List.map_cons, List.mem_cons] at h
      rcases h with h | h
      · exact Or.inl h
      · exact Or.inr (List.mem_cons_of_mem _ h)
    · simp only [dset, if_neg h2, List.map_cons, List.mem_cons] at h
      rcases h with h | h
      · exact Or.inr (by simp [h])
      · rcases ih h with h | h
        · exact Or.inl h
        · exact Or.inr (List.mem_cons_of_mem _ h)

theorem keysNodup_dset {κ α : Type} [DecidableEq κ] (k : κ) (v : α)
    (d : List (κ × α)) (hd : keysNodup d) : keysNodup (dset k v d) := by
  induction d with
  | nil => simp [keysNodup, dset]
  | cons hd0 tl ih =>
    obtain ⟨k', v'⟩ := hd0
    simp only [keysNodup, List.map_cons, List.nodup_cons] at hd
    by_cases h : k' = k
    · subst h
      simp only [dset, if_true, eq_self_iff_true, keysNodup, List.map_cons,
        List.nodup_cons]
      exact hd
    · simp only [dset, if_neg h, keysNodup, List.map_cons, List.nodup_cons]
      constructor
      · intro hmem
        rcases mem_keys_dset k' k v tl hmem with h2 | h2
        · exact h h2
        · exact hd.1 h2
      · exact ih hd.2

/-- A vocabulary word as returned by queries.get_words_with_distractors
(queries.py lines 1092-1142): the uzbek prompt, the translation (the correct
answer) and the list of distractors (empty when any of the three stored
distractor columns is missing, else exactly the three stored strings). -/
structure Word where
  id : Nat
  uzbek : String
  translation : String
  distractors : List String
deriving DecidableEq

/-- A battle question as built in start_battle_for_players
(callback_handlers.py lines 281-289). -/
structure Question where
  id : Nat
  uzbek : String
  correct_answer : String
  distractors : List String
deriving DecidableEq

/-- One element of player_data["answers"] (callback_handlers.py lines
414-419). -/
structure AnswerRecord where
  question_index : Nat
  answer_index : Nat
  is_correct : Bool
  timestamp : Nat
deriving DecidableEq

/-- One per-player dict inside battle_data["players"]. The dynamic fields
correct_index_{q} written by send_question_to_player are modelled as the dict
correct_indices from question index to the shuffled correct index. -/
structure PlayerData where
  answers : List AnswerRecord
  start_time : Nat
  current_question : Nat
  completed : Bool
  completion_time : Option Nat
  correct_indices : List (Nat × Nat)
deriving DecidableEq

/-- battle_data (callback_handlers.py lines 296-316); players is
insertion-ordered like a Python dict. -/
structure BattleData where
  questions : List Question
  players : List (Nat × PlayerData)
  battle_id : Nat
deriving DecidableEq

/-- The module-global active_battles dict (callback_handlers.py line 34). -/
abbrev ActiveBattles := List (Nat × BattleData)

/-- One value of the waiting_battles dict (callback_handlers.py lines
234-239); the callback and scope_display fields are transport data and the
stored battle_session is identified by its id. -/
structure WaitingEntry where
  user_id : Nat
  battle_session : Nat
deriving DecidableEq

/-- The module-global waiting_battles dict keyed by the battle_config string
(callback_handlers.py line 35). -/
abbrev WaitingBattles := List (String × WaitingEntry)

/-- Python list.index: position of the first occurrence. -/
def pyIndex (x : String) : List String → Nat
  | [] => 0
  | y :: ys => if y = x then 0 else pyIndex x ys + 1

/-- shuffle_answer_options (callback_handlers.py lines 37-42). random.shuffle
permutes the list options = distractors + [correct_answer] in place; the
permutation it produces is supplied explicitly as `shuffle`. -/
def shuffle_answer_options (correct_answer : String) (distractors : List String)
    (shuffle : List String → List String) : List String × Nat :=
  let options := shuffle (distractors ++ [correct_answer])
  (options, pyIndex correct_answer options)

theorem pyIndex_getD (a : String) (l : List String) (h : a ∈ l) :
    l.getD (pyIndex a l) "" = a := by
  induction l with
  | nil => cases h
  | cons b t ih =>
    by_cases hb : b = a
    · simp [pyIndex, hb]
    · have ht : a ∈ t := by
        rcases List.mem_cons.mp h with h2 | h2
        · exact absurd h2.symm hb
        · exact h2
      simpa [pyIndex, hb] using ih ht

theorem pyIndex_lt_length (a : String) (l : List String) (h : a ∈ l) :
    pyIndex a l < l.length := by
  induction l with
  | nil => cases h
  | cons b t ih =>
    by_cases hb : b = a
    · simp [pyIndex, hb]
    · have ht : a ∈ t := by
        rcases List.mem_cons.mp h with h2 | h2
        · exact absurd h2.symm hb
        · exact h2
      simp only [pyIndex, if_neg hb, List.length_cons]
      exact Nat.succ_lt_succ (ih ht)

/-- PairingResult of the matchmaking step in create_battle_session. -/
inductive PairingResult
  | paired (opponent : WaitingEntry)
  | waiting
deriving DecidableEq

/-- The matchmaking core of create_battle_session for battle_type == "random"
(callback_handlers.py lines 216-246): when waiting_battles holds an entry
under the caller's battle_config key, that entry is taken (the opponent) and
deleted — its user_id is never compared with the caller's — and otherwise the
caller is stored under the config key. -/
def create_battle_session (user_id : Nat) (battle_config : String)
    (battle_session : Nat) (waiting_battles : WaitingBattles) :
    PairingResult × WaitingBattles :=
  match dget battle_config waiting_battles with
  | some opponent_data =>
      (PairingResult.paired opponent_data, ddel battle_config waiting_battles)
  | none =>
      (PairingResult.waiting,
       dset battle_config ⟨user_id, battle_session⟩ waiting_battles)

/-- The question-list construction of start_battle_for_players
(callback_handlers.py lines 281-289): a word is kept only when it has at
least 3 distractors, of which the first 3 are used. -/
def build_questions (battle_words : List Word) : List Question :=
  battle_words.filterMap (fun word =>
    if 3 ≤ word.distractors.length then
      some ⟨word.id, word.uzbek, word.translation, word.distractors.take 3⟩
    else none)

/-- One question push to one player: the edit_text of
send_question_to_player, keeping the data the keyboard shows. -/
structure Delivery where
  user_id : Nat
  question_index : Nat
  options : List String
  correct_index : Nat
deriving DecidableEq

/-- send_question_to_player (callback_handlers.py lines 348-386): looks the
battle and player up, bails out silently when the battle or player is
missing, the index is out of range or the player has completed; otherwise
shuffles the options, records the shuffled correct index under
correct_index_{question_index} in the player dict and delivers the
question. -/
def send_question_to_player (store : ActiveBattles) (user_id battle_id : Nat)
    (question_index : Nat) (shuffle : List String → List String) :
    ActiveBattles × Option Delivery :=
  match dget battle_id store with
  | none => (store, none)
  | some battle_data =>
    match dget user_id battle_data.players with
    | none => (store, none)
    | some player_data =>
      if battle_data.questions.length ≤ question_index ∨
          player_data.completed = true then
        (store, none)
      else
        match battle_data.questions.get? question_index with
        | none => (store, none)
        | some question =>
          let shuffled := shuffle_answer_options question.correct_answer
            question.distractors shuffle
          let player2 := { player_data with
            correct_indices :=
              dset question_index shuffled.2 player_data.correct_indices }
          let battle2 := { battle_data with
            players := dset user_id player2 battle_data.players }
          (dset battle_id battle2 store,
           some ⟨user_id, question_index, shuffled.1, shuffled.2⟩)

/-- The per-player dict literal of battle_data["players"]
(callback_handlers.py lines 299-312): empty answers, the time.time() sample
taken at creation, question index 0, not completed. -/
def init_player_data (start_time : Nat) : PlayerData :=
  { answers := [], start_time := start_time, current_question := 0,
    completed := false, completion_time := none, correct_indices := [] }

/-- start_battle_for_players (callback_handlers.py lines 268-343).
battle_words stands for the result of
db.get_words_with_distractors(battle_session["word_ids"]); time.time() is
modelled by successive samples of `clock` (sample 0 taken for player 1 at
line 302, sample 1 for player 2 at line 309); the two initial random.shuffle
permutations are shuffle1 and shuffle2. The two insufficient-content paths
(lines 276-278 and 291-293) return with no battle stored and nothing
delivered. On success the battle is stored under battle_id, and after the
2-second pause question 0 is sent to both players. -/
def start_battle_for_players (user1 user2 : Nat) (battle_words : List Word)
    (battle_id : Nat) (clock : List Nat)
    (shuffle1 shuffle2 : List String → List String) (store : ActiveBattles) :
    Option Nat × ActiveBattles × List Delivery :=
  if battle_words.length < 10 then (none, store, [])
  else
    let questions := build_questions battle_words
    if questions.length < 10 then (none, store, [])
    else
      let battle_data : BattleData := {
        questions := questions.take 10
        players := dset user2 (init_player_data (clock.getD 1 0))
          (dset user1 (init_player_data (clock.getD 0 0)) [])
        battle_id := battle_id }
      let store1 := dset battle_id battle_data store
      let sent1 := send_question_to_player store1 user1 battle_id 0 shuffle1
      let sent2 := send_question_to_player sent1.1 user2 battle_id 0 shuffle2
      (some battle_id, sent2.1, [sent1.2, sent2.2].filterMap id)

/-- The score computation of answer_handler and show_battle_results: the
number of answer records with is_correct true. -/
def score (p : PlayerData) : Nat :=
  (p.answers.filter (fun a => a.is_correct)).length

/-- The three possible winner_name outcomes of show_battle_results. -/
inductive WinnerTag
  | player1
  | player2
  | draw
deriving DecidableEq

/-- The data of the results message of show_battle_results
(callback_handlers.py lines 490-499). -/
structure MatchResult where
  player1_id : Nat
  player2_id : Nat
  player1_score : Nat
  player2_score : Nat
  player1_time : Nat
  player2_time : Nat
  winner : WinnerTag
deriving DecidableEq

/-- show_battle_results (callback_handlers.py lines 468-512): player1 and
player2 are the first two entries of the players dict in insertion order;
the winner comparison at lines 483-488 reads only the two scores — on a score
tie the result is "Draw!" whatever the completion times — and the battle is
deleted from active_battles (line 512). -/
def show_battle_results (battle_data : BattleData) (store : ActiveBattles) :
    Option MatchResult × ActiveBattles :=
  match battle_data.players with
  | (player1_id, player1_data) :: (player2_id, player2_data) :: _ =>
    let player1_score := score player1_data
    let player2_score := score player2_data
    let winner :=
      if player1_score > player2_score then WinnerTag.player1
      else if player2_score > player1_score then WinnerTag.player2
      else WinnerTag.draw
    (some { player1_id := player1_id, player2_id := player2_id,
            player1_score := player1_score, player2_score := player2_score,
            player1_time := player1_data.completion_time.getD 0,
            player2_time := player2_data.completion_time.getD 0,
            winner := winner },
     ddel battle_data.battle_id store)
  | _ => (none, store)

/-- Result of the per-player mutation step of answer_handler. -/
inductive PlayerStep
  | rejectedCompleted
  | rejectedNoIndex
  | advanced (player : PlayerData)
deriving DecidableEq

/-- The per-player core of answer_handler (callback_handlers.py lines
405-441): a completed player is rejected with no mutation (lines 405-407); a
missing correct_index_{q} raises KeyError before any mutation (line 410);
otherwise the answer record is appended, current_question incremented, and on
reaching the question count the player is marked completed with
completion_time = now - start_time. -/
def submit_answer_player (questions_count : Nat) (player_data : PlayerData)
    (answer_index now : Nat) : PlayerStep :=
  if player_data.completed then PlayerStep.rejectedCompleted
  else
    match dget player_data.current_question player_data.correct_indices with
    | none => PlayerStep.rejectedNoIndex
    | some correct_index =>
      let record : AnswerRecord :=
        ⟨player_data.current_question, answer_index,
         answer_index == correct_index, now⟩
      let player1 := { player_data with
        answers := player_data.answers ++ [record] }
      let player2 := { player1 with
        current_question := player1.current_question + 1 }
      if questions_count ≤ player2.current_question then
        PlayerStep.advanced { player2 with
          completed := true,
          completion_time := some (now - player2.start_time) }
      else PlayerStep.advanced player2

/-- The outcome answer_handler reports back to the answering player. -/
inductive AnswerOutcome
  | battleNotFound
  | errorProcessing
  | alreadyCompleted
  | bothCompleted (result : Option MatchResult)
  | waitingForOpponent (own_score own_time : Nat)
  | nextQuestion (delivery : Option Delivery)
deriving DecidableEq

/-- answer_handler (callback_handlers.py lines 388-466). battle_id is
session.current_battle_id; `now` the time.time() sample of this event;
`shuffle` the random.shuffle permutation of a possible next-question
delivery. KeyError on the player lookup (line 403) or on the stored correct
index (line 410) reaches the except handler before any mutation; the
IndexError of line 444 for a battle with a single player entry (a self-paired
battle) fires after the mutations were stored. -/
def answer_handler (store : ActiveBattles) (user_id : Nat)
    (battle_id : Option Nat) (answer_index now : Nat)
    (shuffle : List String → List String) : AnswerOutcome × ActiveBattles :=
  match battle_id with
  | none => (AnswerOutcome.battleNotFound, store)
  | some bid =>
    match dget bid store with
    | none => (AnswerOutcome.battleNotFound, store)
    | some battle_data =>
      match dget user_id battle_data.players with
      | none => (AnswerOutcome.errorProcessing, store)
      | some player_data =>
        match submit_answer_player battle_data.questions.length player_data
            answer_index now with
        | PlayerStep.rejectedCompleted => (AnswerOutcome.alreadyCompleted, store)
        | PlayerStep.rejectedNoIndex => (AnswerOutcome.errorProcessing, store)
        | PlayerStep.advanced player2 =>
          let battle2 := { battle_data with
            players := dset user_id player2 battle_data.players }
          let store2 := dset bid battle2 store
          if player2.completed then
            match battle2.players.filter (fun pr => pr.1 != user_id) with
            | [] => (AnswerOutcome.errorProcessing, store2)
            | other :: _ =>
              if other.2.completed then
                let final := show_battle_results battle2 store2
                (AnswerOutcome.bothCompleted final.1, final.2)
              else
                (AnswerOutcome.waitingForOpponent (score player2)
                  (player2.completion_time.getD 0), store2)
          else
            let sent := send_question_to_player store2 user_id bid
              player2.current_question shuffle
            (AnswerOutcome.nextQuestion sent.2, sent.1)

/-- A stored battle session row (battle_sessions_topic / battle_sessions_book
in queries.py). -/
structure BattleSession where
  id : Nat
  session_number : Nat
  word_ids : List Nat
deriving DecidableEq

/-- queries.get_random_battle_session_topic and _book (queries.py lines
1585-1655): SELECT ... ORDER BY RANDOM() LIMIT 1 over all stored sessions of
the scope. Any stored row can be returned — nothing excludes a previously
played session; `pick` selects which row the RANDOM() ordering puts first. -/
def get_random_battle_session (sessions : List BattleSession) (pick : Nat) :
    Option BattleSession :=
  if sessions.isEmpty then none
  else sessions.get? (pick % sessions.length)

/-- One value of the pending_rebattles dict (rebate_handlers.py lines
56-63); message/chat ids are transport data. -/
structure RebattleRequest where
  requester_id : Nat
  opponent_id : Nat
  battle_config : String
deriving DecidableEq

/-- The module-global pending_rebattles dict (rebate_handlers.py line 35),
keyed by the request id. -/
abbrev PendingRebattles := List (String × RebattleRequest)

/-- Number of parameters of callback_handlers.start_battle_for_players
(callback_handlers.py line 268): callback1, callback2, battle_session,
battle_id, scope_display. -/
def start_battle_for_players_param_count : Nat := 5

/-- Number of positional arguments of the call at rebate_handlers.py line
195: msg_user_data, battle_session, battle_id, battle_config, scope_display,
bot. -/
def rebattle_start_call_arg_count : Nat := 6

/-- Outcome of accept_rebattle_handler as observed by the acting user. -/
inductive AcceptOutcome
  | requestExpired
  | invalidRequest
  | sessionUnavailable
  | battleStarted (session : BattleSession)
  | startFailed (session : BattleSession)
deriving DecidableEq

/-- accept_rebattle_handler (rebate_handlers.py lines 118-208). An unknown
request id is reported expired (lines 124-127); an acting user other than the
stored opponent_id is rejected with the request kept (lines 132-134); with no
session available the request is dropped (lines 155-160). Otherwise a session
is drawn by get_random_battle_session and the handler reaches the
start_battle_for_players call of line 195, which passes 6 positional
arguments to a function declared with 5 parameters: Python raises TypeError
before the callee runs, the except handler of lines 200-204 swallows it and
deletes the pending request, and no battle is started. -/
def accept_rebattle_handler (pending : PendingRebattles) (request_id : String)
    (acting_user : Nat) (sessions : List BattleSession) (pick : Nat) :
    AcceptOutcome × PendingRebattles :=
  match dget request_id pending with
  | none => (AcceptOutcome.requestExpired, pending)
  | some request_data =>
    if acting_user ≠ request_data.opponent_id then
      (AcceptOutcome.invalidRequest, pending)
    else
      match get_random_battle_session sessions pick with
      | none => (AcceptOutcome.sessionUnavailable, ddel request_id pending)
      | some battle_session =>
        if rebattle_start_call_arg_count = start_battle_for_players_param_count
        then (AcceptOutcome.battleStarted battle_session,
              ddel request_id pending)
        else (AcceptOutcome.startFailed battle_session,
              ddel request_id pending)

/-- Reads a player's start_time out of the active-battles store. -/
def start_time_of (store : ActiveBattles) (battle_id user_id : Nat) :
    Option Nat :=
  match dget battle_id store with
  | none => none
  | some battle_data =>
    (dget user_id battle_data.players).map (fun p => p.start_time)

/-- Number of waiting_battles entries held by one player. -/
def pendingCountFor (user_id : Nat) (waiting_battles : WaitingBattles) : Nat :=
  (waiting_battles.filter (fun e => e.2.user_id == user_id)).length

/-- The battle value written back by the happy path of
send_question_to_player. -/
def send_question_update (battle_data : BattleData) (player_data : PlayerData)
    (user_id question_index correct_index : Nat) : BattleData :=
  { battle_data with
    players :=
      dset user_id
        { player_data with
          correct_indices :=
            dset question_index correct_index player_data.correct_indices }
        battle_data.players }

theorem send_question_to_player_succ (store : ActiveBattles)
    (user_id battle_id question_index : Nat)
    (shuffle : List String → List String) (battle_data : BattleData)
    (player_data : PlayerData) (question : Question)
    (hb : dget battle_id store = some battle_data)
    (hp : dget user_id battle_data.players = some player_data)
    (hq : battle_data.questions.get? question_index = some question)
    (hc : player_data.completed = false) :
    send_question_to_player store user_id battle_id question_index shuffle =
      (dset battle_id
        (send_question_update battle_data player_data user_id question_index
          (shuffle_answer_options question.correct_answer
            question.distractors shuffle).2)
        store,
       some ⟨user_id, question_index,
             (shuffle_answer_options question.correct_answer
               question.distractors shuffle).1,
             (shuffle_answer_options question.correct_answer
               question.distractors shuffle).2⟩) := by
  have hlt : question_index < battle_data.questions.length := by
    by_contra hge
    rw [List.get?_eq_none.mpr (Nat.le_of_not_lt hge)] at hq
    cases hq
  have hguard : ¬(battle_data.questions.length ≤ question_index ∨
      player_data.completed = true) :=
    not_or.mpr ⟨Nat.not_le.mpr hlt, by simp [hc]⟩
  simp only [send_question_to_player, hb, hp, hq, if_neg hguard,
    send_question_update]

theorem build_questions_length (battle_words : List Word) :
    (build_questions battle_words).length =
      (battle_words.filter
        (fun w => decide (3 ≤ w.distractors.length))).length := by
  induction battle_words with
  | nil => rfl
  | cons w t ih =>
    have ih2 := ih
    simp only [build_questions] at ih2
    by_cases h : 3 ≤ w.distractors.length
    · simp only [build_questions, List.filterMap_cons, if_pos h,
        List.filter_cons, decide_eq_true_eq, h, if_true, List.length_cons]
      omega
    · simp only [build_questions, List.filterMap_cons, if_neg h,
        List.filter_cons, decide_eq_true_eq, h, if_false, List.length_cons]
      omega

theorem build_questions_mem (battle_words : List Word) (q : Question)
    (h : q ∈ build_questions battle_words) : q.distractors.length = 3 := by
  simp only [build_questions, List.mem_filterMap] at h
  obtain ⟨w, _, hq⟩ := h
  by_cases h3 : 3 ≤ w.distractors.length
  · rw [if_pos h3] at hq
    obtain rfl := Option.some.inj hq
    simp [List.length_take]
    omega
  · rw [if_neg h3] at hq
    cases hq

theorem start_battle_for_players_success
    (user1 user2 : Nat) (battle_words : List Word) (battle_id : Nat)
    (clock : List Nat) (shuffle1 shuffle2 : List String → List String)
    (store : ActiveBattles) (hne : user1 ≠ user2)
    (hw : 10 ≤ battle_words.length)
    (hq10 : 10 ≤ (build_questions battle_words).length) :
    ∃ (battle_final : BattleData) (store_final : ActiveBattles)
      (deliveries : List Delivery),
      start_battle_for_players user1 user2 battle_words battle_id clock
          shuffle1 shuffle2 store =
        (some battle_id, store_final, deliveries) ∧
      dget battle_id store_final = some battle_final ∧
      battle_final.questions = (build_questions battle_words).take 10 ∧
      (dget user1 battle_final.players).map (fun p => p.start_time) =
        some (clock.getD 0 0) ∧
      (dget user1 battle_final.players).map (fun p => p.completed) =
        some false ∧
      (dget user2 battle_final.players).map (fun p => p.start_time) =
        some (clock.getD 1 0) ∧
      (dget user2 battle_final.players).map (fun p => p.completed) =
        some false ∧
      deliveries.map (fun d => (d.user_id, d.question_index)) =
        [(user1, 0), (user2, 0)] := by
  have hne2 : user2 ≠ user1 := fun h => hne h.symm
  have h1 : ¬(battle_words.length < 10) := by omega
  have h2 : ¬((build_questions battle_words).length < 10) := by omega
  obtain ⟨q0, hq0⟩ :
      ∃ q, ((build_questions battle_words).take 10).get? 0 = some q := by
    cases hg : ((build_questions battle_words).take 10).get? 0 with
    | some q => exact ⟨q, rfl⟩
    | none =>
      have hlen := List.get?_eq_none.mp hg
      rw [List.length_take] at hlen
      omega
  have hpl : dset user2 (init_player_data (clock.getD 1 0))
      (dset user1 (init_player_data (clock.getD 0 0))
        ([] : List (Nat × PlayerData))) =
      [(user1, init_player_data (clock.getD 0 0)),
       (user2, init_player_data (clock.getD 1 0))] := by
    simp [dset, hne]
  have hsend1 := send_question_to_player_succ
    (dset battle_id
      ⟨(build_questions battle_words).take 10,
       [(user1, init_player_data (clock.getD 0 0)),
        (user2, init_player_data (clock.getD 1 0))],
       battle_id⟩
      store)
    user1 battle_id 0 shuffle1
    ⟨(build_questions battle_words).take 10,
     [(user1, init_player_data (clock.getD 0 0)),
      (user2, init_player_data (clock.getD 1 0))],
     battle_id⟩
    (init_player_data (clock.getD 0 0)) q0
    (dget_dset_self _ _ _)
    (by simp [dget])
    hq0
    rfl
  have hsend2 := send_question_to_player_succ
    (dset battle_id
      (send_question_update
        ⟨(build_questions battle_words).take 10,
         [(user1, init_player_data (clock.getD 0 0)),
          (user2, init_player_data (clock.getD 1 0))],
         battle_id⟩
        (init_player_data (clock.getD 0 0)) user1 0
        (shuffle_answer_options q0.correct_answer q0.distractors shuffle1).2)
      (dset battle_id
        ⟨(build_questions battle_words).take 10,
         [(user1, init_player_data (clock.getD 0 0)),
          (user2, init_player_data (clock.getD 1 0))],
         battle_id⟩
        store))
    user2 battle_id 0 shuffle2
    (send_question_update
      ⟨(build_questions battle_words).take 10,
       [(user1, init_player_data (clock.getD 0 0)),
        (user2, init_player_data (clock.getD 1 0))],
       battle_id⟩
      (init_player_data (clock.getD 0 0)) user1 0
      (shuffle_answer_options q0.correct_answer q0.distractors shuffle1).2)
    (init_player_data (clock.getD 1 0)) q0
    (dget_dset_self _ _ _)
    (by simp [send_question_update, dget, dset, hne])
    hq0
    rfl
  simp only [start_battle_for_players, if_neg h1, if_neg h2, hpl, hsend1,
    hsend2, List.filterMap_cons, List.filterMap_nil, id_eq]
  refine ⟨_, _, _, rfl, dget_dset_self _ _ _, ?_, ?_, ?_, ?_, ?_, ?_⟩
  · simp [send_question_update]
  · simp [send_question_update, dget, dset, hne, hne2, init_player_data]
  · simp [send_question_update, dget, dset, hne, hne2, init_player_data]
  · simp [send_question_update, dget, dset, hne, hne2, init_player_data]
  · simp [send_question_update, dget, dset, hne, hne2, init_player_data]
  · simp

/-- A two-player battle state in which both players are completed with equal
scores (1 correct answer each) and player 1 strictly faster (3s against
7s). -/
def tie_player1 : PlayerData :=
  { answers := [⟨0, 0, true, 0⟩, ⟨1, 1, false, 0⟩], start_time := 0,
    current_question := 2, completed := true, completion_time := some 3,
    correct_indices := [] }

/-- Second player of the score-tie example: same score, slower (7s). -/
def tie_player2 : PlayerData :=
  { answers := [⟨0, 1, false, 0⟩, ⟨1, 0, true, 0⟩], start_time := 0,
    current_question := 2, completed := true, completion_time := some 7,
    correct_indices := [] }

/-- The score-tie battle used against the tie-break claim. -/
def tie_battle : BattleData :=
  { questions := [], players := [(1, tie_player1), (2, tie_player2)],
    battle_id := 99 }

/-- C1: counterexample. With equal scores (1:1) and player 1 strictly faster
(3s against 7s), show_battle_results yields winner "Draw!", not player 1 as
the claim demands of a score tie with ta < tb. -/
theorem C1_counterexample :
    (show_battle_results tie_battle [(99, tie_battle)]).1 =
      some { player1_id := 1, player2_id := 2, player1_score := 1,
             player2_score := 1, player1_time := 3, player2_time := 7,
             winner := WinnerTag.draw } ∧
    (3 : Nat) < 7 ∧ WinnerTag.draw ≠ WinnerTag.player1 :=
  ⟨rfl, by decide, by decide⟩

/-- C1 (amended): the winner computed at finalization depends on the two
scores alone — if player1Score > player2Score the winner is player 1, if
player2Score > player1Score the winner is player 2, and on a score tie the
result is a draw regardless of the elapsed times; no time tie-break is
applied. -/
theorem C1_winner_by_score_only (battle_data : BattleData)
    (store store2 : ActiveBattles) (result : MatchResult)
    (h : show_battle_results battle_data store = (some result, store2)) :
    (result.player2_score < result.player1_score →
      result.winner = WinnerTag.player1) ∧
    (result.player1_score < result.player2_score →
      result.winner = WinnerTag.player2) ∧
    (result.player1_score = result.player2_score →
      result.winner = WinnerTag.draw) := by
  rcases hpl : battle_data.players with _ | ⟨⟨i1, p1⟩, _ | ⟨⟨i2, p2⟩, rest⟩⟩
  · simp only [show_battle_results, hpl] at h
    have hcontra := congrArg Prod.fst h
    simp at hcontra
  · simp only [show_battle_results, hpl] at h
    have hcontra := congrArg Prod.fst h
    simp at hcontra
  · simp only [show_battle_results, hpl, Prod.mk.injEq,
      Option.some.injEq] at h
    obtain ⟨hres, -⟩ := h
    subst hres
    dsimp only
    refine ⟨?_, ?_, ?_⟩
    · intro hcmp
      simp only [gt_iff_lt]
      rw [if_pos hcmp]
    · intro hcmp
      simp only [gt_iff_lt]
      rw [if_neg (by omega), if_pos hcmp]
    · intro hcmp
      simp only [gt_iff_lt]
      rw [if_neg (by omega), if_neg (by omega)]

/-- A battle in which player 1 scores 2 and player 2 scores 0. -/
def win_player1 : PlayerData :=
  { answers := [⟨0, 0, true, 0⟩, ⟨1, 0, true, 0⟩], start_time := 0,
    current_question := 2, completed := true, completion_time := some 9,
    correct_indices := [] }

/-- Second player of the score-win example: score 0, faster. -/
def win_player2 : PlayerData :=
  { answers := [⟨0, 1, false, 0⟩], start_time := 0, current_question := 2,
    completed := true, completion_time := some 2, correct_indices := [] }

/-- The battle used as the C1 witness input. -/
def win_battle : BattleData :=
  { questions := [], players := [(1, win_player1), (2, win_player2)],
    battle_id := 98 }

/-- The result show_battle_results produces on win_battle. -/
def win_result : MatchResult :=
  { player1_id := 1, player2_id := 2, player1_score := 2, player2_score := 0,
    player1_time := 9, player2_time := 2, winner := WinnerTag.player1 }

/-- C1 (amended) witness: on win_battle the higher-scoring player 1 wins even
though player 2 was faster. -/
theorem C1_winner_by_score_only_witness :
    win_result.player2_score < win_result.player1_score ∧
    win_result.winner = WinnerTag.player1 :=
  ⟨by decide,
   (C1_winner_by_score_only win_battle [] [] win_result (by decide)).1
     (by decide)⟩

/-- C2: counterexample. Player 7 enqueues under config "book_1", then issues
a second request for the same config: create_battle_session pairs player 7
with their own stale waiting entry — the opponent's user_id equals the
caller's, so self-pairing is not forbidden. -/
theorem C2_counterexample :
    (create_battle_session 7 "book_1" 11
      ((create_battle_session 7 "book_1" 11 []).2)).1 =
      PairingResult.paired ⟨7, 11⟩ := by decide

/-- C2 (amended): when waiting_battles holds an entry under the caller's
config key, create_battle_session returns that entry as the opponent —
whatever its user_id, so possibly the caller itself — and deletes the entry,
enqueuing nothing for the caller: no waiting entry remains under that config
for either side. -/
theorem C2_pairing_takes_and_removes_config_entry (user_id : Nat)
    (battle_config : String) (battle_session : Nat) (w : WaitingBattles)
    (entry : WaitingEntry) (hw : keysNodup w)
    (h : dget battle_config w = some entry) :
    create_battle_session user_id battle_config battle_session w =
      (PairingResult.paired entry, ddel battle_config w) ∧
    dget battle_config (ddel battle_config w) = none := by
  constructor
  · simp only [create_battle_session, h]
  · exact dget_ddel_self _ _ hw

/-- C2 (amended) witness: player 4 pairs with waiting player 3 under
"book_1" and the queue entry is gone afterwards. -/
theorem C2_pairing_takes_and_removes_config_entry_witness :
    create_battle_session 4 "book_1" 12 [("book_1", ⟨3, 9⟩)] =
      (PairingResult.paired ⟨3, 9⟩,
       ddel "book_1" [("book_1", (⟨3, 9⟩ : WaitingEntry))]) ∧
    dget "book_1" (ddel "book_1" [("book_1", (⟨3, 9⟩ : WaitingEntry))]) =
      none :=
  C2_pairing_takes_and_removes_config_entry 4 "book_1" 12
    [("book_1", ⟨3, 9⟩)] ⟨3, 9⟩ (by decide) (by decide)

/-- C3: counterexample. Player 7 enqueues under config "book_1" and then
under config "topic_2": both waiting entries persist, so two pending entries
for the same playerId coexist — the second request does not replace the
first. -/
theorem C3_counterexample :
    pendingCountFor 7
      ((create_battle_session 7 "topic_2" 12
        ((create_battle_session 7 "book_1" 11 []).2)).2) = 2 := by decide

/-- C3 (amended): waiting_battles is keyed by battle config, and
create_battle_session preserves key uniqueness, so at most one waiting entry
exists per battle config — not per playerId: one player may hold entries
under several configs, and a repeat request under the same config consumes
the stored entry by pairing with it instead of replacing it. -/
theorem C3_at_most_one_entry_per_config (user_id : Nat)
    (battle_config : String) (battle_session : Nat) (w : WaitingBattles)
    (hw : keysNodup w) :
    keysNodup
      (create_battle_session user_id battle_config battle_session w).2 := by
  cases h : dget battle_config w with
  | some e =>
    simp only [create_battle_session, h]
    exact keysNodup_ddel _ _ hw
  | none =>
    simp only [create_battle_session, h]
    exact keysNodup_dset _ _ _ hw

/-- C3 (amended) witness: after player 4 enqueues under "topic_2" on top of a
queue holding player 3 under "book_1", the queue keys are still unique. -/
theorem C3_at_most_one_entry_per_config_witness :
    keysNodup
      (create_battle_session 4 "topic_2" 12 [("book_1", ⟨3, 9⟩)]).2 :=
  C3_at_most_one_entry_per_config 4 "topic_2" 12 [("book_1", ⟨3, 9⟩)]
    (by decide)

/-- Ten resolved words, each with 3 distractors all distinct from the
translation. -/
def sampleWords : List Word :=
  [⟨1, "u1", "t1", ["x1", "x2", "x3"]⟩,
   ⟨2, "u2", "t2", ["x1", "x2", "x3"]⟩,
   ⟨3, "u3", "t3", ["x1", "x2", "x3"]⟩,
   ⟨4, "u4", "t4", ["x1", "x2", "x3"]⟩,
   ⟨5, "u5", "t5", ["x1", "x2", "x3"]⟩,
   ⟨6, "u6", "t6", ["x1", "x2", "x3"]⟩,
   ⟨7, "u7", "t7", ["x1", "x2", "x3"]⟩,
   ⟨8, "u8", "t8", ["x1", "x2", "x3"]⟩,
   ⟨9, "u9", "t9", ["x1", "x2", "x3"]⟩,
   ⟨10, "u10", "t10", ["x1", "x2", "x3"]⟩]

/-- C4: counterexample. Starting a battle with clock samples 100 and 101
stores start_time 100 for player 1 and 101 for player 2 — both stamped at
Match creation (before the countdown pause and before question 0 is sent)
from two separate time.time() calls, so the two values are not identical and
startedAt is not left unset at creation. -/
theorem C4_counterexample :
    start_time_of
      (start_battle_for_players 1 2 sampleWords 50 [100, 101] id id []).2.1
      50 1 = some 100 ∧
    start_time_of
      (start_battle_for_players 1 2 sampleWords 50 [100, 101] id id []).2.1
      50 2 = some 101 ∧
    (some 100 : Option Nat) ≠ some 101 :=
  ⟨rfl, rfl, by decide⟩

/-- C4 (amended): on a successful start, each player's start_time is stamped
at Match creation from that player's own time.time() sample (clock sample 0
for player 1 at line 302, sample 1 for player 2 at line 309 — so the two
stamps need not be identical), not at the end of the countdown; question
index 0 is then delivered to both players after the fixed 2-second pause. -/
theorem C4_start_time_at_creation (user1 user2 : Nat)
    (battle_words : List Word) (battle_id : Nat) (clock : List Nat)
    (shuffle1 shuffle2 : List String → List String) (store : ActiveBattles)
    (hne : user1 ≠ user2) (hw : 10 ≤ battle_words.length)
    (hq10 : 10 ≤ (build_questions battle_words).length) :
    (start_battle_for_players user1 user2 battle_words battle_id clock
      shuffle1 shuffle2 store).1 = some battle_id ∧
    start_time_of
      (start_battle_for_players user1 user2 battle_words battle_id clock
        shuffle1 shuffle2 store).2.1 battle_id user1 =
      some (clock.getD 0 0) ∧
    start_time_of
      (start_battle_for_players user1 user2 battle_words battle_id clock
        shuffle1 shuffle2 store).2.1 battle_id user2 =
      some (clock.getD 1 0) ∧
    (start_battle_for_players user1 user2 battle_words battle_id clock
      shuffle1 shuffle2 store).2.2.map
        (fun d => (d.user_id, d.question_index)) =
      [(user1, 0), (user2, 0)] := by
  obtain ⟨B, S, D, heq, hb, -, h1a, -, h2a, -, hD⟩ :=
    start_battle_for_players_success user1 user2 battle_words battle_id clock
      shuffle1 shuffle2 store hne hw hq10
  rw [heq]
  refine ⟨rfl, ?_, ?_, hD⟩
  · simp only [start_time_of, hb]
    exact h1a
  · simp only [start_time_of, hb]
    exact h2a

/-- C4 (amended) witness: the concrete run with clock [100, 101] stamps 100
and 101 at creation and delivers question 0 to both players. -/
theorem C4_start_time_at_creation_witness :
    (start_battle_for_players 1 2 sampleWords 50 [100, 101] id id []).1 =
      some 50 ∧
    start_time_of
      (start_battle_for_players 1 2 sampleWords 50 [100, 101] id id []).2.1
      50 1 = some 100 ∧
    start_time_of
      (start_battle_for_players 1 2 sampleWords 50 [100, 101] id id []).2.1
      50 2 = some 101 ∧
    (start_battle_for_players 1 2 sampleWords 50 [100, 101] id id []).2.2.map
      (fun d => (d.user_id, d.question_index)) = [(1, 0), (2, 0)] :=
  C4_start_time_at_creation 1 2 sampleWords 50 [100, 101] id id []
    (by decide) (by decide) (by decide)

/-- Ten resolved words of which the first has a distractor equal to its own
translation "t1" — it still has 3 distractors, so nothing drops it. -/
def dupWords : List Word :=
  [⟨1, "u1", "t1", ["t1", "x2", "x3"]⟩,
   ⟨2, "u2", "t2", ["x1", "x2", "x3"]⟩,
   ⟨3, "u3", "t3", ["x1", "x2", "x3"]⟩,
   ⟨4, "u4", "t4", ["x1", "x2", "x3"]⟩,
   ⟨5, "u5", "t5", ["x1", "x2", "x3"]⟩,
   ⟨6, "u6", "t6", ["x1", "x2", "x3"]⟩,
   ⟨7, "u7", "t7", ["x1", "x2", "x3"]⟩,
   ⟨8, "u8", "t8", ["x1", "x2", "x3"]⟩,
   ⟨9, "u9", "t9", ["x1", "x2", "x3"]⟩,
   ⟨10, "u10", "t10", ["x1", "x2", "x3"]⟩]

/-- C5: counterexample. A word whose distractor list contains its own
correct answer "t1" passes the only validation (at least 3 distractors) and
is delivered with options ["t1", "x2", "x3", "t1"]: 4 option strings of which
only 3 are distinct, with index 0 marked correct while index 3 shows the
identical text — refuting "4 distinct option strings" and "no distractor
equal to the correct answer". -/
theorem C5_counterexample :
    (start_battle_for_players 1 2 dupWords 60 [0, 0] id id []).2.2.map
      (fun d => (d.options, d.correct_index)) =
      [(["t1", "x2", "x3", "t1"], 0), (["t1", "x2", "x3", "t1"], 0)] ∧
    (["t1", "x2", "x3", "t1"] : List String).dedup.length = 3 ∧
    (3 : Nat) ≠ 4 :=
  ⟨rfl, by decide, by decide⟩

/-- C5 (amended): every question that survives into a Match has exactly 3
distractors (words with fewer are dropped by build_questions), and every
delivery made by send_question_to_player for such a question carries exactly
4 option strings counted with multiplicity — the 3 distractors plus the
correct answer, with no distinctness check — of which the single recorded
correct index points at an occurrence of the correct answer. -/
theorem C5_four_options_one_marked :
    (∀ (battle_words : List Word) (q : Question),
        q ∈ build_questions battle_words → q.distractors.length = 3) ∧
    (∀ (store store2 : ActiveBattles)
        (user_id battle_id question_index : Nat)
        (shuffle : List String → List String) (battle_data : BattleData)
        (q : Question) (d : Delivery),
        dget battle_id store = some battle_data →
        battle_data.questions.get? question_index = some q →
        q.distractors.length = 3 →
        (∀ l, List.Perm (shuffle l) l) →
        send_question_to_player store user_id battle_id question_index
          shuffle = (store2, some d) →
        d.options.length = 4 ∧ d.correct_index < 4 ∧
        d.options.getD d.correct_index "" = q.correct_answer) := by
  constructor
  · exact fun battle_words q h => build_questions_mem battle_words q h
  · intro store store2 user_id battle_id question_index shuffle battle_data
      q d hb hq hd3 hperm hsend
    simp only [send_question_to_player, hb] at hsend
    cases hp2 : dget user_id battle_data.players with
    | none =>
      rw [hp2] at hsend
      have hcontra := congrArg Prod.snd hsend
      simp at hcontra
    | some player_data =>
      rw [hp2] at hsend
      dsimp only at hsend
      by_cases hg : battle_data.questions.length ≤ question_index ∨
          player_data.completed = true
      · rw [if_pos hg] at hsend
        have hcontra := congrArg Prod.snd hsend
        simp at hcontra
      · rw [if_neg hg, hq] at hsend
        simp only [Prod.mk.injEq, Option.some.injEq] at hsend
        obtain ⟨-, hd⟩ := hsend
        subst hd
        have hperm2 := hperm (q.distractors ++ [q.correct_answer])
        have hmem : q.correct_answer ∈
            shuffle (q.distractors ++ [q.correct_answer]) :=
          hperm2.mem_iff.mpr (by simp)
        refine ⟨?_, ?_, ?_⟩
        · have hlen := hperm2.length_eq
          simp only [List.length_append, List.length_singleton, hd3] at hlen
          exact hlen
        · have hlt := pyIndex_lt_length _ _ hmem
          have hlen := hperm2.length_eq
          simp only [List.length_append, List.length_singleton, hd3] at hlen
          simpa [shuffle_answer_options, hlen] using hlt
        · exact pyIndex_getD _ _ hmem

/-- A one-question battle used as the C5 witness input. -/
def w5_battle : BattleData :=
  { questions := [⟨1, "u1", "t1", ["x1", "x2", "x3"]⟩],
    players := [(1, init_player_data 0)], battle_id := 5 }

/-- C5 (amended) witness: the identity shuffle delivers the question of
w5_battle as 4 options with index 3 marked correct and showing "t1". -/
theorem C5_four_options_one_marked_witness :
    (["x1", "x2", "x3", "t1"] : List String).length = 4 ∧ (3 : Nat) < 4 ∧
    (["x1", "x2", "x3", "t1"] : List String).getD 3 "" = "t1" :=
  C5_four_options_one_marked.2 [(5, w5_battle)]
    (send_question_to_player [(5, w5_battle)] 1 5 0 id).1 1 5 0 id w5_battle
    ⟨1, "u1", "t1", ["x1", "x2", "x3"]⟩ ⟨1, 0, ["x1", "x2", "x3", "t1"], 3⟩
    (by decide) (by decide) (by decide) (fun l => List.Perm.refl l)
    (by decide)

/-- A pending rebattle ticket from requester 10 against opponent 20. -/
def rebattle_pending_ex : PendingRebattles :=
  [("req1", ⟨10, 20, "topic_5"⟩)]

/-- A session catalog holding only session 77 — in the rematch situation,
the session the two players just played. -/
def rebattle_sessions_ex : List BattleSession :=
  [⟨77, 1, [1, 2, 3, 4, 5, 6, 7, 8, 9, 10]⟩]

/-- C6: evaluation at the failing input. The correct opponent (20) accepts a
valid ticket with a session available, yet the handler ends in the
startFailed branch — the call at rebate_handlers.py line 195 passes 6
positional arguments to the 5-parameter start_battle_for_players, so Python
raises TypeError, the except handler swallows it, the ticket is discarded and
no Match is started; moreover the drawn session is session 77, the only (and
just-played) session of the scope, since the random draw excludes nothing. -/
theorem C6_accept_never_starts_battle :
    accept_rebattle_handler rebattle_pending_ex "req1" 20
      rebattle_sessions_ex 0 =
      (AcceptOutcome.startFailed ⟨77, 1, [1, 2, 3, 4, 5, 6, 7, 8, 9, 10]⟩,
       []) ∧
    rebattle_start_call_arg_count ≠ start_battle_for_players_param_count ∧
    get_random_battle_session rebattle_sessions_ex 0 =
      some ⟨77, 1, [1, 2, 3, 4, 5, 6, 7, 8, 9, 10]⟩ ∧
    accept_rebattle_handler rebattle_pending_ex "req1" 99
      rebattle_sessions_ex 0 =
      (AcceptOutcome.invalidRequest, rebattle_pending_ex) := by decide

/-- C7: for a player of a 10-question Match whose state satisfies the cursor
invariant (current_question at most 10, and below 10 while not completed),
every accepted answer advances current_question by exactly 1, keeps it at
most 10, marks the player completed exactly when it reaches 10, and
re-establishes the invariant; a completed player is always rejected, so no
further answer is accepted once the cursor reached 10. -/
theorem C7_progress_monotone (questions_count : Nat)
    (player_data : PlayerData) (answer_index now : Nat)
    (hqc : questions_count = 10)
    (hcur : player_data.current_question ≤ 10)
    (hactive : player_data.completed = false →
      player_data.current_question < 10) :
    (∀ p2, submit_answer_player questions_count player_data answer_index now =
        PlayerStep.advanced p2 →
      p2.current_question = player_data.current_question + 1 ∧
      p2.current_question ≤ 10 ∧
      (p2.current_question = 10 → p2.completed = true) ∧
      (p2.completed = false → p2.current_question < 10)) ∧
    (player_data.completed = true →
      submit_answer_player questions_count player_data answer_index now =
        PlayerStep.rejectedCompleted) := by
  subst hqc
  constructor
  · intro p2 hstep
    unfold submit_answer_player at hstep
    by_cases hc : player_data.completed = true
    · rw [if_pos hc] at hstep
      cases hstep
    · rw [if_neg hc] at hstep
      have hcf : player_data.completed = false := by
        revert hc
        cases player_data.completed <;> simp
      have hlt := hactive hcf
      cases hidx : dget player_data.current_question
          player_data.correct_indices with
      | none =>
        rw [hidx] at hstep
        cases hstep
      | some ci =>
        rw [hidx] at hstep
        dsimp only at hstep
        by_cases hend : 10 ≤ player_data.current_question + 1
        · rw [if_pos hend] at hstep
          cases hstep
          dsimp only
          refine ⟨rfl, by omega, fun _ => rfl, ?_⟩
          intro hfalse
          cases hfalse
        · rw [if_neg hend] at hstep
          cases hstep
          dsimp only
          exact ⟨rfl, by omega, fun habs => absurd habs (by omega),
                 fun _ => by omega⟩
  · intro hc
    unfold submit_answer_player
    rw [if_pos hc]

/-- A player one accepted answer away from completion, with the shuffled
correct index of question 9 recorded. -/
def w7_player : PlayerData :=
  { answers := [], start_time := 0, current_question := 9, completed := false,
    completion_time := none, correct_indices := [(9, 2)] }

/-- C7 witness: the invariant hypotheses hold for w7_player and the theorem
applies at questions_count 10, answer 2, time 5. -/
theorem C7_progress_monotone_witness :
    (∀ p2, submit_answer_player 10 w7_player 2 5 = PlayerStep.advanced p2 →
      p2.current_question = w7_player.current_question + 1 ∧
      p2.current_question ≤ 10 ∧
      (p2.current_question = 10 → p2.completed = true) ∧
      (p2.completed = false → p2.current_question < 10)) ∧
    (w7_player.completed = true →
      submit_answer_player 10 w7_player 2 5 =
        PlayerStep.rejectedCompleted) :=
  C7_progress_monotone 10 w7_player 2 5 rfl (by decide) (fun _ => by decide)

/-- C8: an answer submitted for a player whose completed flag is true is
rejected with the already-completed outcome and the whole active-battles
store — this player's answers, cursor and completion time as well as the
opponent's state — is returned unchanged. -/
theorem C8_completed_rejected_no_mutation (store : ActiveBattles)
    (user_id bid answer_index now : Nat)
    (shuffle : List String → List String) (battle_data : BattleData)
    (player_data : PlayerData)
    (hb : dget bid store = some battle_data)
    (hp : dget user_id battle_data.players = some player_data)
    (hc : player_data.completed = true) :
    answer_handler store user_id (some bid) answer_index now shuffle =
      (AnswerOutcome.alreadyCompleted, store) := by
  have hstep : submit_answer_player battle_data.questions.length player_data
      answer_index now = PlayerStep.rejectedCompleted := by
    unfold submit_answer_player
    rw [if_pos hc]
  simp only [answer_handler, hb, hp, hstep]

/-- A completed player for the C8 witness. -/
def w8_player : PlayerData :=
  { answers := [⟨0, 1, true, 3⟩], start_time := 0, current_question := 10,
    completed := true, completion_time := some 4, correct_indices := [] }

/-- The battle holding the completed player for the C8 witness. -/
def w8_battle : BattleData :=
  { questions := [], players := [(1, w8_player)], battle_id := 70 }

/-- C8 witness: an answer from completed player 1 of w8_battle is rejected
and the store is returned verbatim. -/
theorem C8_completed_rejected_no_mutation_witness :
    answer_handler [(70, w8_battle)] 1 (some 70) 0 9 id =
      (AnswerOutcome.alreadyCompleted, [(70, w8_battle)]) :=
  C8_completed_rejected_no_mutation [(70, w8_battle)] 1 70 0 9 id w8_battle
    w8_player (by decide) (by decide) (by decide)

/-- C9: when fewer than 10 of the resolved words have at least 3 distractors
(so fewer than 10 valid questions can be built), start_battle_for_players
fails before creating anything: it returns none, delivers nothing, and hands
the active-battles store back unchanged — no partial Match exists. -/
theorem C9_insufficient_content_no_match (user1 user2 : Nat)
    (battle_words : List Word) (battle_id : Nat) (clock : List Nat)
    (shuffle1 shuffle2 : List String → List String) (store : ActiveBattles)
    (h : (battle_words.filter
      (fun w => decide (3 ≤ w.distractors.length))).length < 10) :
    start_battle_for_players user1 user2 battle_words battle_id clock
      shuffle1 shuffle2 store = (none, store, []) := by
  by_cases hw : battle_words.length < 10
  · unfold start_battle_for_players
    rw [if_pos hw]
  · have hq : (build_questions battle_words).length < 10 := by
      rw [build_questions_length]
      exact h
    unfold start_battle_for_players
    rw [if_neg hw]
    simp only [if_pos hq]

/-- Twelve resolved words of which only 8 have 3 distractors (4 words have
just 2), mirroring Scenario E. -/
def shortWords : List Word :=
  [⟨1, "u1", "t1", ["x1", "x2", "x3"]⟩,
   ⟨2, "u2", "t2", ["x1", "x2", "x3"]⟩,
   ⟨3, "u3", "t3", ["x1", "x2", "x3"]⟩,
   ⟨4, "u4", "t4", ["x1", "x2", "x3"]⟩,
   ⟨5, "u5", "t5", ["x1", "x2", "x3"]⟩,
   ⟨6, "u6", "t6", ["x1", "x2", "x3"]⟩,
   ⟨7, "u7", "t7", ["x1", "x2", "x3"]⟩,
   ⟨8, "u8", "t8", ["x1", "x2", "x3"]⟩,
   ⟨9, "u9", "t9", ["x1", "x2"]⟩,
   ⟨10, "u10", "t10", ["x1", "x2"]⟩,
   ⟨11, "u11", "t11", ["x1", "x2"]⟩,
   ⟨12, "u12", "t12", ["x1", "x2"]⟩]

/-- C9 witness: with only 8 valid words out of 12, the start fails and the
empty store stays empty. -/
theorem C9_insufficient_content_no_match_witness :
    start_battle_for_players 1 2 shortWords 80 [0, 0] id id [] =
      (none, [], []) :=
  C9_insufficient_content_no_match 1 2 shortWords 80 [0, 0] id id []
    (by decide)

/-- C10: for every correct answer, distractor list and random.shuffle
permutation, shuffle_answer_options returns an options list that is a
permutation of distractors ++ [correct_answer] — so of length
distractors.length + 1 — together with an in-range correct_index at which
the options list holds the correct answer. -/
theorem C10_shuffle_permutation (correct_answer : String)
    (distractors : List String) (shuffle : List String → List String)
    (hsh : List.Perm (shuffle (distractors ++ [correct_answer]))
      (distractors ++ [correct_answer])) :
    List.Perm (shuffle_answer_options correct_answer distractors shuffle).1
      (distractors ++ [correct_answer]) ∧
    (shuffle_answer_options correct_answer distractors shuffle).1.length =
      distractors.length + 1 ∧
    (shuffle_answer_options correct_answer distractors shuffle).1.getD
      (shuffle_answer_options correct_answer distractors shuffle).2 "" =
      correct_answer ∧
    (shuffle_answer_options correct_answer distractors shuffle).2 <
      (shuffle_answer_options correct_answer distractors shuffle).1.length
    := by
  have hmem : correct_answer ∈ shuffle (distractors ++ [correct_answer]) :=
    hsh.mem_iff.mpr (by simp)
  refine ⟨hsh, ?_, ?_, ?_⟩
  · simpa using hsh.length_eq
  · exact pyIndex_getD _ _ hmem
  · exact pyIndex_lt_length _ _ hmem

/-- C10 witness: with List.reverse as the shuffle, "c" against ["a", "b"]
yields options ["c", "b", "a"] with correct index 0. -/
theorem C10_shuffle_permutation_witness :
    List.Perm (shuffle_answer_options "c" ["a", "b"] List.reverse).1
      (["a", "b"] ++ ["c"]) ∧
    (shuffle_answer_options "c" ["a", "b"] List.reverse).1.length =
      (["a", "b"] : List String).length + 1 ∧
    (shuffle_answer_options "c" ["a", "b"] List.reverse).1.getD
      (shuffle_answer_options "c" ["a", "b"] List.reverse).2 "" = "c" ∧
    (shuffle_answer_options "c" ["a", "b"] List.reverse).2 <
      (shuffle_answer_options "c" ["a", "b"] List.reverse).1.length :=
  C10_shuffle_permutation "c" ["a", "b"] List.reverse (List.reverse_perm _)

end NamuRobot
